import Mathlib

/-!
Shallow embedding of the pokemon-engine reward core (src/src/models.rs,
src/src/config.rs, src/src/engine/calculator.rs, src/src/storage.rs,
src/src/engine/reward_engine.rs).

Modelling conventions:
* `u64` / `u32` amounts, scores, levels and streaks are `Nat` (Rust debug
  builds panic on overflow, so a completed run satisfies `Nat` semantics).
* `NaiveDate` is `Int`, counting days; `date.pred` is `d - 1`.
* `Uuid` is `Nat`; the engine receives each freshly generated id as an
  explicit argument (`Uuid::new_v4` draws fresh ids).
* `Utc::now().date_naive()` is an explicit `today : Int` argument; the
  record timestamp is modelled at day granularity by the same value.
* The `MemoryStorage` hash maps become a list of rewards (ids are fresh, so
  `HashMap::insert` is a prepend) and function-valued maps for the daily
  stats and login streaks.
* `serde_json` payloads become the inductive `EventPayload`; decoding a
  payload of the wrong shape fails, mirroring `serde_json::from_value`.
* Storage operations of `MemoryStorage` never fail, so handlers return
  plain `RewardResponse × MemoryStorage`; the generic dispatcher, which can
  fail with `InvalidGameType` or a decode error, returns an `Except` in its
  first component.
-/

/-- models.rs: `GameType` enumeration. -/
inductive GameType where
  | FlyPoke
  | Battle
  | PokeMatch
  | Pokedex
  | Login
  | Welcome
deriving DecidableEq

/-- reward_engine.rs line 259 formats the game type with `{:?}` (Rust `Debug`). -/
def gameTypeRepr : GameType → String
  | GameType.FlyPoke => "FlyPoke"
  | GameType.Battle => "Battle"
  | GameType.PokeMatch => "PokeMatch"
  | GameType.Pokedex => "Pokedex"
  | GameType.Login => "Login"
  | GameType.Welcome => "Welcome"

/-- models.rs: `FlyPokeEventData`. -/
structure FlyPokeEventData where
  score : Nat
  is_new_high_score : Bool
  level : Option Nat
deriving DecidableEq

/-- models.rs: `BattleEventData`. -/
structure BattleEventData where
  level : Nat
  streak : Nat
  perfect_victory : Option Bool
deriving DecidableEq

/-- The JSON stored in `Reward.game_data` (serde values built by the handlers). -/
inductive GameData where
  | flypoke (d : FlyPokeEventData)
  | battle (d : BattleEventData)
  | loginStreak (streak : Nat)
  | welcomeBonus
deriving DecidableEq

/-- models.rs: `Reward`. -/
structure Reward where
  id : Nat
  player_id : String
  game : GameType
  amount : Nat
  timestamp : Int
  claimed : Bool
  game_data : GameData
  transaction_signature : Option String
deriving DecidableEq

/-- models.rs: `DailyStats`. -/
structure DailyStats where
  player_id : String
  date : Int
  flypoke : Nat
  battle : Nat
  login : Nat
  total : Nat
deriving DecidableEq

/-- models.rs: `LoginStreak`. -/
structure LoginStreak where
  player_id : String
  current_streak : Nat
  last_login_date : Int
deriving DecidableEq

/-- models.rs: `RewardResponse`. -/
structure RewardResponse where
  reward : Option Reward
  success : Bool
  message : String
  daily_limit_reached : Bool
deriving DecidableEq

/-- models.rs: the kind-specific `event_data` payload of a `GameEvent`. -/
inductive EventPayload where
  | flypoke (d : FlyPokeEventData)
  | battle (d : BattleEventData)
  | other
deriving DecidableEq

/-- models.rs: `GameEvent`. -/
structure GameEvent where
  player_id : String
  game : GameType
  event_data : EventPayload
deriving DecidableEq

/-- `serde_json::from_value::<FlyPokeEventData>` on the payload. -/
def decodeFlyPokeEventData : EventPayload → Option FlyPokeEventData
  | EventPayload.flypoke d => some d
  | _ => none

/-- `serde_json::from_value::<BattleEventData>` on the payload. -/
def decodeBattleEventData : EventPayload → Option BattleEventData
  | EventPayload.battle d => some d
  | _ => none

/-- config.rs: the reward-relevant fields of `Config` (the Solana section and
`token_decimals` play no part in the engine). `login_streak_rewards` models
the `HashMap<u32, u64>` as a lookup function. -/
structure Config where
  flypoke_daily_limit : Nat
  battle_daily_limit : Nat
  battle_base_reward : Nat
  pokematch_daily_limit : Nat
  pokematch_base_reward : Nat
  pokematch_perfect_bonus : Nat
  pokedex_base_reward : Nat
  pokedex_rare_bonus : Nat
  login_daily_reward : Nat
  login_streak_rewards : Nat → Option Nat
  welcome_reward : Nat

/-- config.rs: `Config::default()`. -/
def default_config : Config where
  flypoke_daily_limit := 500000000000
  battle_daily_limit := 300000000000
  battle_base_reward := 50000000000
  pokematch_daily_limit := 200000000000
  pokematch_base_reward := 20000000000
  pokematch_perfect_bonus := 100000000000
  pokedex_base_reward := 10000000000
  pokedex_rare_bonus := 100000000000
  login_daily_reward := 20000000000
  login_streak_rewards := fun n =>
    if n = 3 then some 30000000000
    else if n = 7 then some 50000000000
    else none
  welcome_reward := 100000000000

/-- error.rs: `PokemonEngineError` (variants reachable from the embedded core). -/
inductive EngineError where
  | Storage (msg : String)
  | InvalidGameType (msg : String)
  | Serialization (msg : String)
deriving DecidableEq

/-- calculator.rs: `calculate_flypoke_reward` (amounts are hardcoded lamports). -/
def calculate_flypoke_reward (score : Nat) (is_new_high_score : Bool) : Nat :=
  let amount :=
    if score ≥ 2000 then 100000000000
    else if score ≥ 1001 then 50000000000
    else if score ≥ 501 then 25000000000
    else 10000000000
  if is_new_high_score then amount + 20000000000 else amount

/-- calculator.rs: `calculate_battle_reward`. -/
def calculate_battle_reward (cfg : Config) (level : Nat) (streak : Nat) : Nat :=
  let base := cfg.battle_base_reward
  let level_bonus := level * 20000000000
  let streak_bonus :=
    if streak ≥ 3 then 20000000000
    else if streak ≥ 2 then 10000000000
    else 0
  base + level_bonus + streak_bonus

/-- calculator.rs: `calculate_pokematch_reward`. -/
def calculate_pokematch_reward (cfg : Config) (is_perfect : Bool) : Nat :=
  let base := cfg.pokematch_base_reward
  if is_perfect then base + cfg.pokematch_perfect_bonus else base

/-- calculator.rs: `calculate_pokedex_reward`. -/
def calculate_pokedex_reward (cfg : Config) (is_rare : Bool) : Nat :=
  let base := cfg.pokedex_base_reward
  if is_rare then base + cfg.pokedex_rare_bonus else base

/-- calculator.rs: `calculate_login_reward`. The Rust body checks the streak-7
entry first and falls through to the streak-3 entry, then to the flat daily
reward; the early returns become an `Option` chain. -/
def calculate_login_reward (cfg : Config) (streak : Nat) : Nat :=
  let base := cfg.login_daily_reward
  let bonus7 := if streak ≥ 7 then cfg.login_streak_rewards 7 else none
  let bonus3 := if streak ≥ 3 then cfg.login_streak_rewards 3 else none
  match bonus7 with
  | some bonus => bonus
  | none =>
    match bonus3 with
    | some bonus => bonus
    | none => base

/-- calculator.rs: `get_welcome_reward`. -/
def get_welcome_reward (cfg : Config) : Nat :=
  cfg.welcome_reward

/-- calculator.rs: `get_daily_limit`. -/
def get_daily_limit (cfg : Config) : GameType → Option Nat
  | GameType.FlyPoke => some cfg.flypoke_daily_limit
  | GameType.Battle => some cfg.battle_daily_limit
  | GameType.PokeMatch => some cfg.pokematch_daily_limit
  | _ => none

/-- storage.rs: `MemoryStorage`, with the reward `HashMap` as a list (every
insertion uses a fresh id) and the other two maps as lookup functions. -/
structure MemoryStorage where
  rewards : List Reward
  daily_stats : String × Int → Option DailyStats
  login_streaks : String → Option LoginStreak

namespace MemoryStorage

/-- storage.rs: `MemoryStorage::new`. -/
def new : MemoryStorage where
  rewards := []
  daily_stats := fun _ => none
  login_streaks := fun _ => none

/-- storage.rs: `create_reward` (insert under a fresh id). -/
def create_reward (s : MemoryStorage) (reward : Reward) : MemoryStorage :=
  { s with rewards := reward :: s.rewards }

/-- storage.rs: `get_rewards`. -/
def get_rewards (s : MemoryStorage) (player_id : String) : List Reward :=
  s.rewards.filter fun r => decide (r.player_id = player_id)

/-- storage.rs: `get_pending_rewards`. -/
def get_pending_rewards (s : MemoryStorage) (player_id : String) : List Reward :=
  s.rewards.filter fun r => decide (r.player_id = player_id) && !r.claimed

/-- storage.rs: `mark_all_rewards_claimed`. -/
def mark_all_rewards_claimed (s : MemoryStorage) (player_id : String) : MemoryStorage :=
  { s with rewards := s.rewards.map fun r =>
      if r.player_id = player_id ∧ r.claimed = false then { r with claimed := true } else r }

/-- storage.rs: `get_daily_stats`. -/
def get_daily_stats (s : MemoryStorage) (player_id : String) (date : Int) : Option DailyStats :=
  s.daily_stats (player_id, date)

/-- storage.rs: `update_daily_stats` (insert keyed by `(player_id, date)`). -/
def update_daily_stats (s : MemoryStorage) (stats : DailyStats) : MemoryStorage :=
  { s with daily_stats := fun k =>
      if k = (stats.player_id, stats.date) then some stats else s.daily_stats k }

/-- storage.rs: `get_login_streak`. -/
def get_login_streak (s : MemoryStorage) (player_id : String) : Option LoginStreak :=
  s.login_streaks player_id

/-- storage.rs: `update_login_streak` (insert keyed by player id). -/
def update_login_streak (s : MemoryStorage) (streak : LoginStreak) : MemoryStorage :=
  { s with login_streaks := fun q =>
      if q = streak.player_id then some streak else s.login_streaks q }

/-- storage.rs: `has_welcome_bonus` — an UNCLAIMED Welcome reward exists. -/
def has_welcome_bonus (s : MemoryStorage) (player_id : String) : Bool :=
  s.rewards.any fun r =>
    decide (r.player_id = player_id) && decide (r.game = GameType.Welcome) && !r.claimed

end MemoryStorage

namespace RewardEngine

/-- reward_engine.rs: the private `update_daily_stats` helper — read today's
stats (absent becomes all-zero), bump the per-game bucket, recompute `total`
as the sum of the three buckets, write back. -/
def update_daily_stats (s : MemoryStorage) (today : Int) (player_id : String)
    (game_type : GameType) (amount : Nat) : MemoryStorage :=
  let stats :=
    match s.get_daily_stats player_id today with
    | some st => st
    | none =>
      { player_id := player_id, date := today
        flypoke := 0, battle := 0, login := 0, total := 0 }
  let stats :=
    match game_type with
    | GameType.FlyPoke => { stats with flypoke := stats.flypoke + amount }
    | GameType.Battle => { stats with battle := stats.battle + amount }
    | GameType.Login => { stats with login := stats.login + amount }
    | _ => stats
  let stats := { stats with total := stats.flypoke + stats.battle + stats.login }
  s.update_daily_stats stats

/-- reward_engine.rs: `process_flypoke_event`. The daily-limit branch only
fires when `get_daily_stats` returns `Some`; an absent aggregate skips the
check entirely. -/
def process_flypoke_event (cfg : Config) (s : MemoryStorage) (today : Int) (rid : Nat)
    (player_id : String) (event_data : FlyPokeEventData) : RewardResponse × MemoryStorage :=
  let amount := calculate_flypoke_reward event_data.score event_data.is_new_high_score
  let limit_hit :=
    match get_daily_limit cfg GameType.FlyPoke with
    | some daily_limit =>
      match s.get_daily_stats player_id today with
      | some stats => decide (stats.flypoke + amount > daily_limit)
      | none => false
    | none => false
  if limit_hit then
    ({ reward := none, success := false
       message := "Daily limit reached for FlyPoke", daily_limit_reached := true }, s)
  else
    let reward : Reward :=
      { id := rid, player_id := player_id, game := GameType.FlyPoke, amount := amount
        timestamp := today, claimed := false, game_data := GameData.flypoke event_data
        transaction_signature := none }
    let s := s.create_reward reward
    let s := update_daily_stats s today player_id GameType.FlyPoke amount
    ({ reward := some reward, success := true
       message := "Reward processed successfully", daily_limit_reached := false }, s)

/-- reward_engine.rs: `process_battle_event` (same protocol as FlyPoke). -/
def process_battle_event (cfg : Config) (s : MemoryStorage) (today : Int) (rid : Nat)
    (player_id : String) (event_data : BattleEventData) : RewardResponse × MemoryStorage :=
  let amount := calculate_battle_reward cfg event_data.level event_data.streak
  let limit_hit :=
    match get_daily_limit cfg GameType.Battle with
    | some daily_limit =>
      match s.get_daily_stats player_id today with
      | some stats => decide (stats.battle + amount > daily_limit)
      | none => false
    | none => false
  if limit_hit then
    ({ reward := none, success := false
       message := "Daily limit reached for Battle", daily_limit_reached := true }, s)
  else
    let reward : Reward :=
      { id := rid, player_id := player_id, game := GameType.Battle, amount := amount
        timestamp := today, claimed := false, game_data := GameData.battle event_data
        transaction_signature := none }
    let s := s.create_reward reward
    let s := update_daily_stats s today player_id GameType.Battle amount
    ({ reward := some reward, success := true
       message := "Reward processed successfully", daily_limit_reached := false }, s)

/-- reward_engine.rs: `process_login_event`. The streak state machine: no
record creates streak 1; same-day login is rejected before any write;
yesterday's date increments; anything else resets to 1. The early
"already logged in" return becomes the `none` branch of `attempt`. -/
def process_login_event (cfg : Config) (s : MemoryStorage) (today : Int) (rid : Nat)
    (player_id : String) : RewardResponse × MemoryStorage :=
  let attempt : Option (Nat × MemoryStorage) :=
    match s.get_login_streak player_id with
    | some streak_data =>
      let yesterday := today - 1
      if streak_data.last_login_date = today then
        none
      else
        let updated :=
          if streak_data.last_login_date = yesterday then
            { streak_data with current_streak := streak_data.current_streak + 1
                               last_login_date := today }
          else
            { streak_data with current_streak := 1, last_login_date := today }
        some (updated.current_streak, s.update_login_streak updated)
    | none =>
      let streak_data : LoginStreak :=
        { player_id := player_id, current_streak := 1, last_login_date := today }
      some (1, s.update_login_streak streak_data)
  match attempt with
  | none =>
    ({ reward := none, success := false
       message := "Already logged in today", daily_limit_reached := false }, s)
  | some (streak, s1) =>
    let amount := calculate_login_reward cfg streak
    let reward : Reward :=
      { id := rid, player_id := player_id, game := GameType.Login, amount := amount
        timestamp := today, claimed := false, game_data := GameData.loginStreak streak
        transaction_signature := none }
    let s2 := s1.create_reward reward
    let s3 := update_daily_stats s2 today player_id GameType.Login amount
    ({ reward := some reward, success := true
       message := "Login reward processed successfully", daily_limit_reached := false }, s3)

/-- reward_engine.rs: `process_welcome_event` — rejected while
`has_welcome_bonus` (an unclaimed Welcome record) holds; no DailyAggregate
update on the success path. -/
def process_welcome_event (cfg : Config) (s : MemoryStorage) (today : Int) (rid : Nat)
    (player_id : String) : RewardResponse × MemoryStorage :=
  if s.has_welcome_bonus player_id then
    ({ reward := none, success := false
       message := "Welcome bonus already claimed", daily_limit_reached := false }, s)
  else
    let amount := get_welcome_reward cfg
    let reward : Reward :=
      { id := rid, player_id := player_id, game := GameType.Welcome, amount := amount
        timestamp := today, claimed := false, game_data := GameData.welcomeBonus
        transaction_signature := none }
    ({ reward := some reward, success := true
       message := "Welcome bonus processed successfully", daily_limit_reached := false },
     s.create_reward reward)

/-- reward_engine.rs: `process_game_event` — decode by kind and dispatch; the
wildcard arm (PokeMatch, Pokedex) fails with `InvalidGameType`. -/
def process_game_event (cfg : Config) (s : MemoryStorage) (today : Int) (rid : Nat)
    (event : GameEvent) : Except EngineError RewardResponse × MemoryStorage :=
  match event.game with
  | GameType.FlyPoke =>
    match decodeFlyPokeEventData event.event_data with
    | some event_data =>
      let r := process_flypoke_event cfg s today rid event.player_id event_data
      (Except.ok r.1, r.2)
    | none => (Except.error (EngineError.Serialization "invalid FlyPoke event data"), s)
  | GameType.Battle =>
    match decodeBattleEventData event.event_data with
    | some event_data =>
      let r := process_battle_event cfg s today rid event.player_id event_data
      (Except.ok r.1, r.2)
    | none => (Except.error (EngineError.Serialization "invalid Battle event data"), s)
  | GameType.Login =>
    let r := process_login_event cfg s today rid event.player_id
    (Except.ok r.1, r.2)
  | GameType.Welcome =>
    let r := process_welcome_event cfg s today rid event.player_id
    (Except.ok r.1, r.2)
  | g => (Except.error (EngineError.InvalidGameType (gameTypeRepr g)), s)

/-- reward_engine.rs: `claim_rewards`. -/
def claim_rewards (s : MemoryStorage) (player_id : String) : MemoryStorage :=
  s.mark_all_rewards_claimed player_id

end RewardEngine

/-- One state-mutating engine invocation, with the ambient clock and the fresh
reward id made explicit (queries are pure and change no state). -/
inductive Op where
  | flypokeEv (today : Int) (rid : Nat) (player : String) (d : FlyPokeEventData)
  | battleEv (today : Int) (rid : Nat) (player : String) (d : BattleEventData)
  | loginEv (today : Int) (rid : Nat) (player : String)
  | welcomeEv (today : Int) (rid : Nat) (player : String)
  | claimAllEv (player : String)
  | gameEv (today : Int) (rid : Nat) (event : GameEvent)

/-- Storage state after one engine invocation. -/
def applyOp (cfg : Config) (s : MemoryStorage) : Op → MemoryStorage
  | Op.flypokeEv t rid p d => (RewardEngine.process_flypoke_event cfg s t rid p d).2
  | Op.battleEv t rid p d => (RewardEngine.process_battle_event cfg s t rid p d).2
  | Op.loginEv t rid p => (RewardEngine.process_login_event cfg s t rid p).2
  | Op.welcomeEv t rid p => (RewardEngine.process_welcome_event cfg s t rid p).2
  | Op.claimAllEv p => RewardEngine.claim_rewards s p
  | Op.gameEv t rid ev => (RewardEngine.process_game_event cfg s t rid ev).2

/-- Storage state reached by a sequence of engine invocations from a fresh
`MemoryStorage`; the reachable states are exactly `exec cfg ops` for some
`ops`. -/
def exec (cfg : Config) (ops : List Op) : MemoryStorage :=
  ops.foldl (applyOp cfg) MemoryStorage.new

/-! Calculator facts. -/

/-- Claim C7: the FlyPoke calculator pays the tier of the score's breakpoint
interval — `[0,501)`, `[501,1001)`, `[1001,2000)`, `[2000,∞)` — and adds the
fixed 20-POKE high-score bonus exactly when `is_new_high_score` holds; in
particular score 1500 without a high score pays the `[1001,2000)` tier and
score 2500 with a new high score pays the top tier plus the bonus. -/
theorem flypoke_reward_tiers (score : Nat) (is_new_high_score : Bool) :
    (score < 501 → calculate_flypoke_reward score false = 10000000000)
    ∧ (501 ≤ score → score < 1001 → calculate_flypoke_reward score false = 25000000000)
    ∧ (1001 ≤ score → score < 2000 → calculate_flypoke_reward score false = 50000000000)
    ∧ (2000 ≤ score → calculate_flypoke_reward score false = 100000000000)
    ∧ calculate_flypoke_reward score is_new_high_score =
        calculate_flypoke_reward score false + (if is_new_high_score then 20000000000 else 0)
    ∧ calculate_flypoke_reward 1500 false = 50000000000
    ∧ calculate_flypoke_reward 2500 true = 100000000000 + 20000000000 := by
  refine ⟨?_, ?_, ?_, ?_, ?_, by decide, by decide⟩
  · intro h; simp [calculate_flypoke_reward]; split_ifs <;> omega
  · intro h1 h2; simp [calculate_flypoke_reward]; split_ifs <;> omega
  · intro h1 h2; simp [calculate_flypoke_reward]; split_ifs <;> omega
  · intro h; simp [calculate_flypoke_reward]; split_ifs <;> omega
  · cases is_new_high_score <;> simp [calculate_flypoke_reward]

/-- Witness for `flypoke_reward_tiers` at the two scenario scores. -/
theorem flypoke_reward_tiers_witness :
    calculate_flypoke_reward 1500 false = 50000000000
    ∧ calculate_flypoke_reward 2500 false = 100000000000 :=
  ⟨(flypoke_reward_tiers 1500 false).2.2.1 (by decide) (by decide),
   (flypoke_reward_tiers 2500 false).2.2.2.1 (by decide)⟩

/-- Claim C6: with bonuses configured at streak thresholds 3 and 7, the login
calculator resolves the highest threshold first: streak ≥ 7 pays the
7-threshold bonus (so a streak of exactly 7 does not pay the 3-threshold
bonus), 3 ≤ streak < 7 pays the 3-threshold bonus, and otherwise the flat
daily reward is paid. -/
theorem login_reward_highest_threshold_first (cfg : Config) (b3 b7 : Nat) (streak : Nat)
    (h3 : cfg.login_streak_rewards 3 = some b3)
    (h7 : cfg.login_streak_rewards 7 = some b7) :
    calculate_login_reward cfg streak =
      if streak ≥ 7 then b7
      else if streak ≥ 3 then b3
      else cfg.login_daily_reward := by
  by_cases hge7 : streak ≥ 7
  · simp [calculate_login_reward, hge7, h7]
  · by_cases hge3 : streak ≥ 3
    · simp [calculate_login_reward, hge7, hge3, h3]
    · simp [calculate_login_reward, hge7, hge3]

/-- Witness for `login_reward_highest_threshold_first` on the default
configuration, at streak 7: the 7-threshold bonus is paid. -/
theorem login_reward_highest_threshold_first_witness :
    calculate_login_reward default_config 7 =
      if 7 ≥ 7 then 50000000000
      else if 7 ≥ 3 then 30000000000
      else default_config.login_daily_reward :=
  login_reward_highest_threshold_first default_config 30000000000 50000000000 7 rfl rfl

/-! Dispatch of unwired game kinds. -/

/-- Claim C10: the generic dispatcher fails with `InvalidGameType` for
PokeMatch and Pokedex events and leaves the storage untouched, even though
both kinds are `GameType` members with calculator rules defined. -/
theorem unwired_game_types_fault (cfg : Config) (s : MemoryStorage) (today : Int) (rid : Nat)
    (event : GameEvent)
    (h : event.game = GameType.PokeMatch ∨ event.game = GameType.Pokedex) :
    RewardEngine.process_game_event cfg s today rid event =
      (Except.error (EngineError.InvalidGameType (gameTypeRepr event.game)), s)
    ∧ calculate_pokematch_reward cfg true = cfg.pokematch_base_reward + cfg.pokematch_perfect_bonus
    ∧ calculate_pokedex_reward cfg true = cfg.pokedex_base_reward + cfg.pokedex_rare_bonus := by
  refine ⟨?_, by simp [calculate_pokematch_reward], by simp [calculate_pokedex_reward]⟩
  rcases h with h | h <;> simp [RewardEngine.process_game_event, h]

/-- Witness for `unwired_game_types_fault`: a concrete PokeMatch event on a
fresh storage faults and mutates nothing. -/
theorem unwired_game_types_fault_witness :
    RewardEngine.process_game_event default_config MemoryStorage.new 0 0
        { player_id := "p", game := GameType.PokeMatch, event_data := EventPayload.other } =
      (Except.error (EngineError.InvalidGameType "PokeMatch"), MemoryStorage.new) :=
  (unwired_game_types_fault default_config MemoryStorage.new 0 0
    { player_id := "p", game := GameType.PokeMatch, event_data := EventPayload.other }
    (Or.inl rfl)).1

/-! Claim-all. -/

/-- Claim C8: claim-all flips `claimed` on exactly the player's currently
unclaimed rewards (element by element, every other reward is unchanged),
afterwards the player has no pending rewards, and running it a second time
changes nothing. -/
theorem claim_all_rewards_spec (s : MemoryStorage) (player_id : String) :
    (∀ i : Nat, (RewardEngine.claim_rewards s player_id).rewards[i]? =
      (s.rewards[i]?).map fun r =>
        if r.player_id = player_id ∧ r.claimed = false then { r with claimed := true } else r)
    ∧ (RewardEngine.claim_rewards s player_id).get_pending_rewards player_id = []
    ∧ RewardEngine.claim_rewards (RewardEngine.claim_rewards s player_id) player_id =
        RewardEngine.claim_rewards s player_id := by
  refine ⟨?_, ?_, ?_⟩
  · intro i
    simp [RewardEngine.claim_rewards, MemoryStorage.mark_all_rewards_claimed, List.getElem?_map]
  · rw [MemoryStorage.get_pending_rewards, List.filter_eq_nil_iff]
    intro a ha
    rcases List.mem_map.mp ha with ⟨r, hr, rfl⟩
    by_cases hp : r.player_id = player_id ∧ r.claimed = false
    · simp [if_pos hp]
    · rw [if_neg hp]
      by_cases hpid : r.player_id = player_id
      · have hcl : r.claimed = true := by
          rcases Decidable.not_and_iff_or_not.mp hp with h | h
          · exact absurd hpid h
          · cases hc : r.claimed
            · exact absurd hc h
            · rfl
        simp [hcl]
      · simp [hpid]
  · simp only [RewardEngine.claim_rewards, MemoryStorage.mark_all_rewards_claimed, List.map_map]
    congr 1
    apply List.map_congr_left
    intro r _
    simp only [Function.comp_apply]
    by_cases hp : r.player_id = player_id ∧ r.claimed = false
    · simp [if_pos hp]
    · simp [if_neg hp]

/-! Small projection lemmas about the storage operations. -/

@[simp]
theorem MemoryStorage.create_reward_rewards (s : MemoryStorage) (r : Reward) :
    (s.create_reward r).rewards = r :: s.rewards := rfl

@[simp]
theorem MemoryStorage.create_reward_daily_stats (s : MemoryStorage) (r : Reward) :
    (s.create_reward r).daily_stats = s.daily_stats := rfl

@[simp]
theorem MemoryStorage.create_reward_login_streaks (s : MemoryStorage) (r : Reward) :
    (s.create_reward r).login_streaks = s.login_streaks := rfl

@[simp]
theorem MemoryStorage.update_daily_stats_rewards (s : MemoryStorage) (st : DailyStats) :
    (s.update_daily_stats st).rewards = s.rewards := rfl

@[simp]
theorem MemoryStorage.update_daily_stats_login_streaks (s : MemoryStorage) (st : DailyStats) :
    (s.update_daily_stats st).login_streaks = s.login_streaks := rfl

theorem MemoryStorage.update_daily_stats_lookup (s : MemoryStorage) (st : DailyStats)
    (k : String × Int) :
    (s.update_daily_stats st).daily_stats k =
      if k = (st.player_id, st.date) then some st else s.daily_stats k := rfl

@[simp]
theorem MemoryStorage.update_login_streak_rewards (s : MemoryStorage) (ls : LoginStreak) :
    (s.update_login_streak ls).rewards = s.rewards := rfl

@[simp]
theorem MemoryStorage.update_login_streak_daily_stats (s : MemoryStorage) (ls : LoginStreak) :
    (s.update_login_streak ls).daily_stats = s.daily_stats := rfl

theorem MemoryStorage.update_login_streak_lookup (s : MemoryStorage) (ls : LoginStreak)
    (q : String) :
    (s.update_login_streak ls).login_streaks q =
      if q = ls.player_id then some ls else s.login_streaks q := rfl

@[simp]
theorem RewardEngine.update_stats_keeps_rewards (s : MemoryStorage) (t : Int) (p : String)
    (g : GameType) (a : Nat) :
    (RewardEngine.update_daily_stats s t p g a).rewards = s.rewards := rfl

@[simp]
theorem RewardEngine.update_stats_keeps_login_streaks (s : MemoryStorage) (t : Int) (p : String)
    (g : GameType) (a : Nat) :
    (RewardEngine.update_daily_stats s t p g a).login_streaks = s.login_streaks := rfl

/-! Login streak state machine. -/

/-- Claim C4: `process_login_event` is the streak state machine — no prior
record creates streak 1; a second login on the same date is rejected wholesale
(no streak write, no reward record, storage returned unchanged); a login
exactly one day after the last one increments the streak by exactly 1; a login
with any other last-login date resets the streak to 1 — so consecutive-day
logins produce streaks 1, 2, 3, … . -/
theorem login_streak_state_machine (cfg : Config) (s : MemoryStorage) (today : Int)
    (rid : Nat) (p : String) :
    (s.get_login_streak p = none →
      (RewardEngine.process_login_event cfg s today rid p).1.success = true ∧
      (RewardEngine.process_login_event cfg s today rid p).2.get_login_streak p =
        some { player_id := p, current_streak := 1, last_login_date := today })
    ∧ (∀ ls, s.get_login_streak p = some ls → ls.last_login_date = today →
      RewardEngine.process_login_event cfg s today rid p =
        ({ reward := none, success := false, message := "Already logged in today",
           daily_limit_reached := false }, s))
    ∧ (∀ ls, s.get_login_streak p = some ls → ls.player_id = p →
      ls.last_login_date = today - 1 →
      (RewardEngine.process_login_event cfg s today rid p).1.success = true ∧
      (RewardEngine.process_login_event cfg s today rid p).2.get_login_streak p =
        some { player_id := ls.player_id, current_streak := ls.current_streak + 1,
               last_login_date := today })
    ∧ (∀ ls, s.get_login_streak p = some ls → ls.player_id = p →
      ls.last_login_date ≠ today → ls.last_login_date ≠ today - 1 →
      (RewardEngine.process_login_event cfg s today rid p).1.success = true ∧
      (RewardEngine.process_login_event cfg s today rid p).2.get_login_streak p =
        some { player_id := ls.player_id, current_streak := 1, last_login_date := today }) := by
  refine ⟨?_, ?_, ?_, ?_⟩
  · intro h
    have h0 : s.login_streaks p = none := h
    simp [RewardEngine.process_login_event, h0, MemoryStorage.get_login_streak,
      MemoryStorage.update_login_streak_lookup]
  · intro ls h hl
    simp [RewardEngine.process_login_event, h, hl]
  · intro ls h hpid hl
    have h0 : s.login_streaks p = some ls := h
    have hne : ¬(ls.last_login_date = today) := by omega
    simp [RewardEngine.process_login_event, h0, hne, hl, MemoryStorage.get_login_streak,
      MemoryStorage.update_login_streak_lookup, hpid]
  · intro ls h hpid hne hne1
    have h0 : s.login_streaks p = some ls := h
    simp [RewardEngine.process_login_event, h0, hne, hne1, MemoryStorage.get_login_streak,
      MemoryStorage.update_login_streak_lookup, hpid]

/-- Witness for `login_streak_state_machine`: a player whose streak record is
streak 1 at day 0 logs in on day 1 and the streak becomes 2. -/
theorem login_streak_state_machine_witness :
    (RewardEngine.process_login_event default_config
        (MemoryStorage.new.update_login_streak
          { player_id := "p", current_streak := 1, last_login_date := 0 }) 1 0 "p").1.success = true
    ∧ (RewardEngine.process_login_event default_config
        (MemoryStorage.new.update_login_streak
          { player_id := "p", current_streak := 1, last_login_date := 0 }) 1 0 "p").2.get_login_streak "p" =
      some { player_id := "p", current_streak := 2, last_login_date := 1 } :=
  (login_streak_state_machine default_config
      (MemoryStorage.new.update_login_streak
        { player_id := "p", current_streak := 1, last_login_date := 0 }) 1 0 "p").2.2.1
    { player_id := "p", current_streak := 1, last_login_date := 0 } rfl rfl (by decide)

/-! Policy rejections versus faults. -/

/-- Claim C9: every policy rejection is a plain unsuccessful response — the
handler returns `success = false` with no reward and hands back the storage
unchanged — while the generic dispatcher wraps every handler response,
rejected or not, in `Except.ok` (faults alone use the error channel); and a
capped-game event commits atomically: on success the new state is exactly the
input state plus the one created record plus the one aggregate update. -/
theorem policy_rejections_pure (cfg : Config) (s : MemoryStorage) (today : Int) (rid : Nat)
    (p : String) (fd : FlyPokeEventData) (bd : BattleEventData) :
    ((RewardEngine.process_flypoke_event cfg s today rid p fd).1.success = false →
      (RewardEngine.process_flypoke_event cfg s today rid p fd).1.reward = none ∧
      (RewardEngine.process_flypoke_event cfg s today rid p fd).2 = s)
    ∧ ((RewardEngine.process_battle_event cfg s today rid p bd).1.success = false →
      (RewardEngine.process_battle_event cfg s today rid p bd).1.reward = none ∧
      (RewardEngine.process_battle_event cfg s today rid p bd).2 = s)
    ∧ ((RewardEngine.process_login_event cfg s today rid p).1.success = false →
      (RewardEngine.process_login_event cfg s today rid p).1.reward = none ∧
      (RewardEngine.process_login_event cfg s today rid p).2 = s)
    ∧ ((RewardEngine.process_welcome_event cfg s today rid p).1.success = false →
      (RewardEngine.process_welcome_event cfg s today rid p).1.reward = none ∧
      (RewardEngine.process_welcome_event cfg s today rid p).2 = s)
    ∧ ((RewardEngine.process_flypoke_event cfg s today rid p fd).1.success = true →
      ∃ rw : Reward, (RewardEngine.process_flypoke_event cfg s today rid p fd).1.reward = some rw ∧
        (RewardEngine.process_flypoke_event cfg s today rid p fd).2 =
          RewardEngine.update_daily_stats (s.create_reward rw) today p GameType.FlyPoke rw.amount)
    ∧ ((RewardEngine.process_battle_event cfg s today rid p bd).1.success = true →
      ∃ rw : Reward, (RewardEngine.process_battle_event cfg s today rid p bd).1.reward = some rw ∧
        (RewardEngine.process_battle_event cfg s today rid p bd).2 =
          RewardEngine.update_daily_stats (s.create_reward rw) today p GameType.Battle rw.amount)
    ∧ (RewardEngine.process_game_event cfg s today rid
        { player_id := p, game := GameType.FlyPoke, event_data := EventPayload.flypoke fd }).1 =
      Except.ok (RewardEngine.process_flypoke_event cfg s today rid p fd).1
    ∧ (RewardEngine.process_game_event cfg s today rid
        { player_id := p, game := GameType.Battle, event_data := EventPayload.battle bd }).1 =
      Except.ok (RewardEngine.process_battle_event cfg s today rid p bd).1
    ∧ (RewardEngine.process_game_event cfg s today rid
        { player_id := p, game := GameType.Login, event_data := EventPayload.other }).1 =
      Except.ok (RewardEngine.process_login_event cfg s today rid p).1
    ∧ (RewardEngine.process_game_event cfg s today rid
        { player_id := p, game := GameType.Welcome, event_data := EventPayload.other }).1 =
      Except.ok (RewardEngine.process_welcome_event cfg s today rid p).1 := by
  refine ⟨?_, ?_, ?_, ?_, ?_, ?_, rfl, rfl, rfl, rfl⟩
  · simp only [RewardEngine.process_flypoke_event]
    split
    · intro _; exact ⟨rfl, rfl⟩
    · intro h; simp at h
  · simp only [RewardEngine.process_battle_event]
    split
    · intro _; exact ⟨rfl, rfl⟩
    · intro h; simp at h
  · rcases hls : s.login_streaks p with _ | ls
    · intro h
      simp [RewardEngine.process_login_event, MemoryStorage.get_login_streak, hls] at h
    · by_cases hl : ls.last_login_date = today
      · intro _
        simp [RewardEngine.process_login_event, MemoryStorage.get_login_streak, hls, hl]
      · intro h
        simp [RewardEngine.process_login_event, MemoryStorage.get_login_streak, hls, hl] at h
  · by_cases hw : s.has_welcome_bonus p
    · intro _
      simp [RewardEngine.process_welcome_event, hw]
    · intro h
      simp [RewardEngine.process_welcome_event, hw] at h
  · simp only [RewardEngine.process_flypoke_event]
    split
    · intro h; simp at h
    · intro _
      exact ⟨_, rfl, rfl⟩
  · simp only [RewardEngine.process_battle_event]
    split
    · intro h; simp at h
    · intro _
      exact ⟨_, rfl, rfl⟩

/-- Witness for `policy_rejections_pure`: the welcome rejection on a storage
that already holds an unclaimed Welcome record mutates nothing. -/
theorem policy_rejections_pure_witness :
    (RewardEngine.process_welcome_event default_config
        (RewardEngine.process_welcome_event default_config MemoryStorage.new 0 0 "p").2
        0 1 "p").1.reward = none
    ∧ (RewardEngine.process_welcome_event default_config
        (RewardEngine.process_welcome_event default_config MemoryStorage.new 0 0 "p").2
        0 1 "p").2 =
      (RewardEngine.process_welcome_event default_config MemoryStorage.new 0 0 "p").2 :=
  (policy_rejections_pure default_config
      (RewardEngine.process_welcome_event default_config MemoryStorage.new 0 0 "p").2
      0 1 "p"
      { score := 0, is_new_high_score := false, level := none }
      { level := 0, streak := 0, perfect_victory := none }).2.2.2.1 (by decide)

/-! Daily limit check. -/

/-- Counterexample to claim C1: on the default configuration a Battle event of
level 20 is worth 450 POKE-lamports-e9, above the 300 daily limit, yet with no
aggregate present for the day the limit check is skipped: the event is
accepted, not rejected with `daily_limit_reached`. -/
theorem battle_first_event_skips_limit_check :
    get_daily_limit default_config GameType.Battle = some 300000000000
    ∧ MemoryStorage.new.get_daily_stats "p" 0 = none
    ∧ calculate_battle_reward default_config 20 1 = 450000000000
    ∧ 450000000000 > 300000000000
    ∧ (RewardEngine.process_battle_event default_config MemoryStorage.new 0 0 "p"
        { level := 20, streak := 1, perfect_victory := none }).1.success = true
    ∧ (RewardEngine.process_battle_event default_config MemoryStorage.new 0 0 "p"
        { level := 20, streak := 1, perfect_victory := none }).1.daily_limit_reached = false := by
  refine ⟨rfl, rfl, by decide, by decide, ?_, ?_⟩ <;> rfl

/-- Claim C1 as amended: when a same-day aggregate exists, a FlyPoke or Battle
event whose candidate amount plus the per-game sum exceeds the configured
limit is rejected — `daily_limit_reached = true`, no reward, storage returned
unchanged; when no aggregate exists the limit check is skipped and the event
is accepted whatever its amount. -/
theorem daily_limit_check_amended (cfg : Config) (s : MemoryStorage) (today : Int) (rid : Nat)
    (p : String) (fd : FlyPokeEventData) (bd : BattleEventData) :
    (∀ st, s.get_daily_stats p today = some st →
      st.flypoke + calculate_flypoke_reward fd.score fd.is_new_high_score >
        cfg.flypoke_daily_limit →
      RewardEngine.process_flypoke_event cfg s today rid p fd =
        ({ reward := none, success := false, message := "Daily limit reached for FlyPoke",
           daily_limit_reached := true }, s))
    ∧ (s.get_daily_stats p today = none →
      (RewardEngine.process_flypoke_event cfg s today rid p fd).1.success = true ∧
      (RewardEngine.process_flypoke_event cfg s today rid p fd).1.daily_limit_reached = false)
    ∧ (∀ st, s.get_daily_stats p today = some st →
      st.battle + calculate_battle_reward cfg bd.level bd.streak > cfg.battle_daily_limit →
      RewardEngine.process_battle_event cfg s today rid p bd =
        ({ reward := none, success := false, message := "Daily limit reached for Battle",
           daily_limit_reached := true }, s))
    ∧ (s.get_daily_stats p today = none →
      (RewardEngine.process_battle_event cfg s today rid p bd).1.success = true ∧
      (RewardEngine.process_battle_event cfg s today rid p bd).1.daily_limit_reached = false) := by
  refine ⟨?_, ?_, ?_, ?_⟩
  · intro st h hgt
    simp [RewardEngine.process_flypoke_event, get_daily_limit, h, hgt]
  · intro h
    simp [RewardEngine.process_flypoke_event, get_daily_limit, h]
  · intro st h hgt
    simp [RewardEngine.process_battle_event, get_daily_limit, h, hgt]
  · intro h
    simp [RewardEngine.process_battle_event, get_daily_limit, h]

/-- Witness for `daily_limit_check_amended`: with 491 POKE-e9 already summed
for FlyPoke today, a 10 POKE-e9 event overshoots the 500 limit and is
rejected without mutation. -/
theorem daily_limit_check_amended_witness :
    RewardEngine.process_flypoke_event default_config
        (MemoryStorage.new.update_daily_stats
          { player_id := "p", date := 0, flypoke := 491000000000, battle := 0, login := 0,
            total := 491000000000 }) 0 0 "p"
        { score := 0, is_new_high_score := false, level := none } =
      ({ reward := none, success := false, message := "Daily limit reached for FlyPoke",
         daily_limit_reached := true },
       MemoryStorage.new.update_daily_stats
         { player_id := "p", date := 0, flypoke := 491000000000, battle := 0, login := 0,
           total := 491000000000 }) :=
  (daily_limit_check_amended default_config
      (MemoryStorage.new.update_daily_stats
        { player_id := "p", date := 0, flypoke := 491000000000, battle := 0, login := 0,
          total := 491000000000 }) 0 0 "p"
      { score := 0, is_new_high_score := false, level := none }
      { level := 0, streak := 0, perfect_victory := none }).1
    { player_id := "p", date := 0, flypoke := 491000000000, battle := 0, login := 0,
      total := 491000000000 } rfl (by decide)

/-! Welcome bonus. -/

/-- Counterexample to claim C3: welcome, then claim-all, then welcome again —
the second welcome submission succeeds because `has_welcome_bonus` only looks
for an UNCLAIMED Welcome record, and the player ends up with two Welcome
records. -/
theorem welcome_reissued_after_claim_all :
    (RewardEngine.process_welcome_event default_config
        (exec default_config [Op.welcomeEv 0 0 "p", Op.claimAllEv "p"]) 1 1 "p").1.success = true
    ∧ ((RewardEngine.process_welcome_event default_config
        (exec default_config [Op.welcomeEv 0 0 "p", Op.claimAllEv "p"]) 1 1 "p").2.rewards.filter
          fun r => decide (r.game = GameType.Welcome)).length = 2 := by
  refine ⟨rfl, ?_⟩
  decide

/-- Claim C3 as amended: a welcome submission is rejected (with no new record
and no mutation) exactly while an unclaimed Welcome record for the player
exists; whenever none exists — on the first submission, but also again after
claim-all marks the Welcome record claimed — the submission succeeds and
prepends exactly one Welcome record with the configured fixed amount. -/
theorem welcome_bonus_amended (cfg : Config) (s : MemoryStorage) (today : Int) (rid : Nat)
    (p : String) :
    (s.has_welcome_bonus p = false →
      (RewardEngine.process_welcome_event cfg s today rid p).1.success = true ∧
      (RewardEngine.process_welcome_event cfg s today rid p).1.reward =
        some { id := rid, player_id := p, game := GameType.Welcome, amount := cfg.welcome_reward,
               timestamp := today, claimed := false, game_data := GameData.welcomeBonus,
               transaction_signature := none } ∧
      (RewardEngine.process_welcome_event cfg s today rid p).2.rewards =
        { id := rid, player_id := p, game := GameType.Welcome, amount := cfg.welcome_reward,
          timestamp := today, claimed := false, game_data := GameData.welcomeBonus,
          transaction_signature := none } :: s.rewards)
    ∧ (s.has_welcome_bonus p = true →
      RewardEngine.process_welcome_event cfg s today rid p =
        ({ reward := none, success := false, message := "Welcome bonus already claimed",
           daily_limit_reached := false }, s)) := by
  constructor
  · intro h
    simp [RewardEngine.process_welcome_event, h, get_welcome_reward]
  · intro h
    simp [RewardEngine.process_welcome_event, h]

/-- Witness for `welcome_bonus_amended`: the first welcome submission on a
fresh storage succeeds with the configured amount. -/
theorem welcome_bonus_amended_witness :
    (RewardEngine.process_welcome_event default_config MemoryStorage.new 0 0 "p").1.success = true
    ∧ (RewardEngine.process_welcome_event default_config MemoryStorage.new 0 0 "p").1.reward =
      some { id := 0, player_id := "p", game := GameType.Welcome, amount := 100000000000,
             timestamp := 0, claimed := false, game_data := GameData.welcomeBonus,
             transaction_signature := none }
    ∧ (RewardEngine.process_welcome_event default_config MemoryStorage.new 0 0 "p").2.rewards =
      [{ id := 0, player_id := "p", game := GameType.Welcome, amount := 100000000000,
         timestamp := 0, claimed := false, game_data := GameData.welcomeBonus,
         transaction_signature := none }] :=
  (welcome_bonus_amended default_config MemoryStorage.new 0 0 "p").1 rfl

/-! The aggregate record written by the engine's `update_daily_stats` helper. -/

/-- The `DailyStats` value `RewardEngine.update_daily_stats` writes: today's
stats (all-zero when absent) with the per-game bucket bumped and the total
recomputed. -/
def writtenStats (s : MemoryStorage) (today : Int) (player_id : String)
    (game_type : GameType) (amount : Nat) : DailyStats :=
  let stats :=
    match s.get_daily_stats player_id today with
    | some st => st
    | none =>
      { player_id := player_id, date := today
        flypoke := 0, battle := 0, login := 0, total := 0 }
  let stats :=
    match game_type with
    | GameType.FlyPoke => { stats with flypoke := stats.flypoke + amount }
    | GameType.Battle => { stats with battle := stats.battle + amount }
    | GameType.Login => { stats with login := stats.login + amount }
    | _ => stats
  { stats with total := stats.flypoke + stats.battle + stats.login }

theorem RewardEngine.update_stats_lookup (s : MemoryStorage) (t : Int) (p : String)
    (g : GameType) (a : Nat) (k : String × Int) :
    (RewardEngine.update_daily_stats s t p g a).daily_stats k =
      if k = ((writtenStats s t p g a).player_id, (writtenStats s t p g a).date)
      then some (writtenStats s t p g a) else s.daily_stats k := rfl

theorem writtenStats_total (s : MemoryStorage) (t : Int) (p : String) (g : GameType) (a : Nat) :
    (writtenStats s t p g a).total =
      (writtenStats s t p g a).flypoke + (writtenStats s t p g a).battle +
        (writtenStats s t p g a).login := rfl

theorem writtenStats_fly_none (s : MemoryStorage) (t : Int) (p : String) (a : Nat)
    (h : s.daily_stats (p, t) = none) :
    (writtenStats s t p GameType.FlyPoke a).flypoke = a
    ∧ (writtenStats s t p GameType.FlyPoke a).battle = 0 := by
  simp [writtenStats, MemoryStorage.get_daily_stats, h]

theorem writtenStats_fly_some (s : MemoryStorage) (t : Int) (p : String) (a : Nat)
    (st0 : DailyStats) (h : s.daily_stats (p, t) = some st0) :
    (writtenStats s t p GameType.FlyPoke a).flypoke = st0.flypoke + a
    ∧ (writtenStats s t p GameType.FlyPoke a).battle = st0.battle := by
  simp [writtenStats, MemoryStorage.get_daily_stats, h]

theorem writtenStats_bat_none (s : MemoryStorage) (t : Int) (p : String) (a : Nat)
    (h : s.daily_stats (p, t) = none) :
    (writtenStats s t p GameType.Battle a).flypoke = 0
    ∧ (writtenStats s t p GameType.Battle a).battle = a := by
  simp [writtenStats, MemoryStorage.get_daily_stats, h]

theorem writtenStats_bat_some (s : MemoryStorage) (t : Int) (p : String) (a : Nat)
    (st0 : DailyStats) (h : s.daily_stats (p, t) = some st0) :
    (writtenStats s t p GameType.Battle a).flypoke = st0.flypoke
    ∧ (writtenStats s t p GameType.Battle a).battle = st0.battle + a := by
  simp [writtenStats, MemoryStorage.get_daily_stats, h]

theorem writtenStats_login_none (s : MemoryStorage) (t : Int) (p : String) (a : Nat)
    (h : s.daily_stats (p, t) = none) :
    (writtenStats s t p GameType.Login a).flypoke = 0
    ∧ (writtenStats s t p GameType.Login a).battle = 0 := by
  simp [writtenStats, MemoryStorage.get_daily_stats, h]

theorem writtenStats_login_some (s : MemoryStorage) (t : Int) (p : String) (a : Nat)
    (st0 : DailyStats) (h : s.daily_stats (p, t) = some st0) :
    (writtenStats s t p GameType.Login a).flypoke = st0.flypoke
    ∧ (writtenStats s t p GameType.Login a).battle = st0.battle := by
  simp [writtenStats, MemoryStorage.get_daily_stats, h]

/-! Shape of each handler's effect on the stored daily stats. -/

theorem flypoke_state_shape (cfg : Config) (s : MemoryStorage) (t : Int) (rid : Nat)
    (p : String) (fd : FlyPokeEventData) :
    (RewardEngine.process_flypoke_event cfg s t rid p fd).2 = s
    ∨ ((∀ st0, s.daily_stats (p, t) = some st0 →
          st0.flypoke + calculate_flypoke_reward fd.score fd.is_new_high_score ≤
            cfg.flypoke_daily_limit)
       ∧ ∃ w, (RewardEngine.process_flypoke_event cfg s t rid p fd).2 =
           RewardEngine.update_daily_stats (s.create_reward w) t p GameType.FlyPoke
             (calculate_flypoke_reward fd.score fd.is_new_high_score)) := by
  rcases hst : s.daily_stats (p, t) with _ | st0
  · right
    constructor
    · intro st1 h; exact Option.noConfusion h
    · refine ⟨⟨rid, p, GameType.FlyPoke,
        calculate_flypoke_reward fd.score fd.is_new_high_score, t, false,
        GameData.flypoke fd, none⟩, ?_⟩
      simp [RewardEngine.process_flypoke_event, get_daily_limit,
        MemoryStorage.get_daily_stats, hst]
  · by_cases hgt : st0.flypoke + calculate_flypoke_reward fd.score fd.is_new_high_score >
        cfg.flypoke_daily_limit
    · left
      simp [RewardEngine.process_flypoke_event, get_daily_limit,
        MemoryStorage.get_daily_stats, hst, hgt]
    · right
      constructor
      · intro st1 h; injection h with h; subst h; omega
      · refine ⟨⟨rid, p, GameType.FlyPoke,
          calculate_flypoke_reward fd.score fd.is_new_high_score, t, false,
          GameData.flypoke fd, none⟩, ?_⟩
        simp [RewardEngine.process_flypoke_event, get_daily_limit,
          MemoryStorage.get_daily_stats, hst, hgt]

theorem battle_state_shape (cfg : Config) (s : MemoryStorage) (t : Int) (rid : Nat)
    (p : String) (bd : BattleEventData) :
    (RewardEngine.process_battle_event cfg s t rid p bd).2 = s
    ∨ ((∀ st0, s.daily_stats (p, t) = some st0 →
          st0.battle + calculate_battle_reward cfg bd.level bd.streak ≤ cfg.battle_daily_limit)
       ∧ ∃ w, (RewardEngine.process_battle_event cfg s t rid p bd).2 =
           RewardEngine.update_daily_stats (s.create_reward w) t p GameType.Battle
             (calculate_battle_reward cfg bd.level bd.streak)) := by
  rcases hst : s.daily_stats (p, t) with _ | st0
  · right
    constructor
    · intro st1 h; exact Option.noConfusion h
    · refine ⟨⟨rid, p, GameType.Battle, calculate_battle_reward cfg bd.level bd.streak,
        t, false, GameData.battle bd, none⟩, ?_⟩
      simp [RewardEngine.process_battle_event, get_daily_limit,
        MemoryStorage.get_daily_stats, hst]
  · by_cases hgt : st0.battle + calculate_battle_reward cfg bd.level bd.streak >
        cfg.battle_daily_limit
    · left
      simp [RewardEngine.process_battle_event, get_daily_limit,
        MemoryStorage.get_daily_stats, hst, hgt]
    · right
      constructor
      · intro st1 h; injection h with h; subst h; omega
      · refine ⟨⟨rid, p, GameType.Battle, calculate_battle_reward cfg bd.level bd.streak,
          t, false, GameData.battle bd, none⟩, ?_⟩
        simp [RewardEngine.process_battle_event, get_daily_limit,
          MemoryStorage.get_daily_stats, hst, hgt]

theorem login_state_shape (cfg : Config) (s : MemoryStorage) (t : Int) (rid : Nat)
    (p : String) :
    (RewardEngine.process_login_event cfg s t rid p).2 = s
    ∨ ∃ u a w, (RewardEngine.process_login_event cfg s t rid p).2 =
        RewardEngine.update_daily_stats ((s.update_login_streak u).create_reward w) t p
          GameType.Login a := by
  rcases hls : s.login_streaks p with _ | ls
  · right
    refine ⟨⟨p, 1, t⟩, calculate_login_reward cfg 1,
      ⟨rid, p, GameType.Login, calculate_login_reward cfg 1, t, false,
        GameData.loginStreak 1, none⟩, ?_⟩
    simp [RewardEngine.process_login_event, MemoryStorage.get_login_streak, hls]
  · by_cases hl : ls.last_login_date = t
    · left
      simp [RewardEngine.process_login_event, MemoryStorage.get_login_streak, hls, hl]
    · by_cases hy : ls.last_login_date = t - 1
      · right
        refine ⟨⟨ls.player_id, ls.current_streak + 1, t⟩,
          calculate_login_reward cfg (ls.current_streak + 1),
          ⟨rid, p, GameType.Login, calculate_login_reward cfg (ls.current_streak + 1), t,
            false, GameData.loginStreak (ls.current_streak + 1), none⟩, ?_⟩
        simp [RewardEngine.process_login_event, MemoryStorage.get_login_streak, hls, hl, hy]
      · right
        refine ⟨⟨ls.player_id, 1, t⟩, calculate_login_reward cfg 1,
          ⟨rid, p, GameType.Login, calculate_login_reward cfg 1, t, false,
            GameData.loginStreak 1, none⟩, ?_⟩
        simp [RewardEngine.process_login_event, MemoryStorage.get_login_streak, hls, hl, hy]

theorem welcome_state_daily_stats (cfg : Config) (s : MemoryStorage) (t : Int) (rid : Nat)
    (p : String) :
    (RewardEngine.process_welcome_event cfg s t rid p).2.daily_stats = s.daily_stats := by
  simp only [RewardEngine.process_welcome_event]
  split
  · rfl
  · rfl

theorem claim_rewards_daily_stats (s : MemoryStorage) (p : String) :
    (RewardEngine.claim_rewards s p).daily_stats = s.daily_stats := rfl

/-! Invariant: every stored aggregate's total equals the sum of its buckets. -/

/-- Every stored `DailyStats` has `total = flypoke + battle + login`. -/
def StatsTotal (s : MemoryStorage) : Prop :=
  ∀ p d st, s.daily_stats (p, d) = some st →
    st.total = st.flypoke + st.battle + st.login

theorem statsTotal_new : StatsTotal MemoryStorage.new := by
  intro p d st h
  exact Option.noConfusion h

theorem statsTotal_of_ds_eq (s s' : MemoryStorage) (h : s'.daily_stats = s.daily_stats)
    (hs : StatsTotal s) : StatsTotal s' := by
  intro q d st hq
  rw [h] at hq
  exact hs q d st hq

theorem statsTotal_update (s : MemoryStorage) (t : Int) (p : String) (g : GameType) (a : Nat)
    (hs : StatsTotal s) : StatsTotal (RewardEngine.update_daily_stats s t p g a) := by
  intro q d st h
  rw [RewardEngine.update_stats_lookup] at h
  by_cases hk : (q, d) = ((writtenStats s t p g a).player_id, (writtenStats s t p g a).date)
  · rw [if_pos hk] at h
    injection h with h
    subst h
    exact writtenStats_total s t p g a
  · rw [if_neg hk] at h
    exact hs q d st h

theorem statsTotal_flypoke (cfg : Config) (s : MemoryStorage) (t : Int) (rid : Nat)
    (p : String) (d : FlyPokeEventData) (hs : StatsTotal s) :
    StatsTotal (RewardEngine.process_flypoke_event cfg s t rid p d).2 := by
  rcases flypoke_state_shape cfg s t rid p d with h | ⟨_, w, h⟩
  · rw [h]; exact hs
  · rw [h]
    exact statsTotal_update _ t p GameType.FlyPoke _
      (statsTotal_of_ds_eq s (s.create_reward w) rfl hs)

theorem statsTotal_battle (cfg : Config) (s : MemoryStorage) (t : Int) (rid : Nat)
    (p : String) (d : BattleEventData) (hs : StatsTotal s) :
    StatsTotal (RewardEngine.process_battle_event cfg s t rid p d).2 := by
  rcases battle_state_shape cfg s t rid p d with h | ⟨_, w, h⟩
  · rw [h]; exact hs
  · rw [h]
    exact statsTotal_update _ t p GameType.Battle _
      (statsTotal_of_ds_eq s (s.create_reward w) rfl hs)

theorem statsTotal_login (cfg : Config) (s : MemoryStorage) (t : Int) (rid : Nat)
    (p : String) (hs : StatsTotal s) :
    StatsTotal (RewardEngine.process_login_event cfg s t rid p).2 := by
  rcases login_state_shape cfg s t rid p with h | ⟨u, a, w, h⟩
  · rw [h]; exact hs
  · rw [h]
    exact statsTotal_update _ t p GameType.Login a
      (statsTotal_of_ds_eq s ((s.update_login_streak u).create_reward w) rfl hs)

theorem applyOp_statsTotal (cfg : Config) (s : MemoryStorage) (op : Op)
    (hs : StatsTotal s) : StatsTotal (applyOp cfg s op) := by
  cases op with
  | flypokeEv t rid p d => exact statsTotal_flypoke cfg s t rid p d hs
  | battleEv t rid p d => exact statsTotal_battle cfg s t rid p d hs
  | loginEv t rid p => exact statsTotal_login cfg s t rid p hs
  | welcomeEv t rid p =>
    exact statsTotal_of_ds_eq s _ (welcome_state_daily_stats cfg s t rid p) hs
  | claimAllEv p =>
    exact statsTotal_of_ds_eq s _ (claim_rewards_daily_stats s p) hs
  | gameEv t rid ev =>
    rcases ev with ⟨pp, g, pay⟩
    cases g with
    | FlyPoke =>
      cases pay with
      | flypoke d => exact statsTotal_flypoke cfg s t rid pp d hs
      | battle d => exact hs
      | other => exact hs
    | Battle =>
      cases pay with
      | battle d => exact statsTotal_battle cfg s t rid pp d hs
      | flypoke d => exact hs
      | other => exact hs
    | Login => exact statsTotal_login cfg s t rid pp hs
    | Welcome => exact statsTotal_of_ds_eq s _ (welcome_state_daily_stats cfg s t rid pp) hs
    | PokeMatch => exact hs
    | Pokedex => exact hs

theorem exec_statsTotal (cfg : Config) (ops : List Op) : StatsTotal (exec cfg ops) := by
  suffices h : ∀ s, StatsTotal s → StatsTotal (ops.foldl (applyOp cfg) s) from
    h MemoryStorage.new statsTotal_new
  induction ops with
  | nil => exact fun s hs => hs
  | cons op rest ih =>
    exact fun s hs => ih (applyOp cfg s op) (applyOp_statsTotal cfg s op hs)

/-- Claim C5: in every state reachable by any sequence of engine operations,
each stored `DailyAggregate` satisfies `total = flypoke + battle + login` —
the helper recomputes the total from the per-game sums on every write. -/
theorem daily_total_invariant (cfg : Config) (ops : List Op) (p : String) (d : Int)
    (st : DailyStats) (h : (exec cfg ops).daily_stats (p, d) = some st) :
    st.total = st.flypoke + st.battle + st.login :=
  exec_statsTotal cfg ops p d st h

/-- Witness for `daily_total_invariant`: the aggregate after one FlyPoke event
of score 0 (10 POKE-e9) satisfies the total equation. -/
theorem daily_total_invariant_witness :
    (10000000000 : Nat) = 10000000000 + 0 + 0 :=
  daily_total_invariant default_config
    [Op.flypokeEv 0 0 "p" { score := 0, is_new_high_score := false, level := none }] "p" 0
    { player_id := "p", date := 0, flypoke := 10000000000, battle := 0, login := 0,
      total := 10000000000 } rfl

/-! Invariant: capped buckets stay within the configured limits, provided each
single event amount is within the limit. -/

/-- Every stored aggregate's FlyPoke and Battle buckets are within the
configured daily limits. -/
def StatsCapped (cfg : Config) (s : MemoryStorage) : Prop :=
  ∀ p d st, s.daily_stats (p, d) = some st →
    st.flypoke ≤ cfg.flypoke_daily_limit ∧ st.battle ≤ cfg.battle_daily_limit

theorem statsCapped_new (cfg : Config) : StatsCapped cfg MemoryStorage.new := by
  intro p d st h
  exact Option.noConfusion h

theorem statsCapped_of_ds_eq (cfg : Config) (s s' : MemoryStorage)
    (h : s'.daily_stats = s.daily_stats) (hc : StatsCapped cfg s) : StatsCapped cfg s' := by
  intro q d st hq
  rw [h] at hq
  exact hc q d st hq

theorem statsCapped_update (cfg : Config) (s : MemoryStorage) (t : Int) (p : String)
    (g : GameType) (a : Nat) (hc : StatsCapped cfg s)
    (hf : (writtenStats s t p g a).flypoke ≤ cfg.flypoke_daily_limit)
    (hb : (writtenStats s t p g a).battle ≤ cfg.battle_daily_limit) :
    StatsCapped cfg (RewardEngine.update_daily_stats s t p g a) := by
  intro q d st h
  rw [RewardEngine.update_stats_lookup] at h
  by_cases hk : (q, d) = ((writtenStats s t p g a).player_id, (writtenStats s t p g a).date)
  · rw [if_pos hk] at h
    injection h with h
    subst h
    exact ⟨hf, hb⟩
  · rw [if_neg hk] at h
    exact hc q d st h

theorem writtenStats_fly_le (cfg : Config) (s : MemoryStorage) (t : Int) (p : String) (a : Nat)
    (hc : StatsCapped cfg s)
    (hguard : ∀ st0, s.daily_stats (p, t) = some st0 →
      st0.flypoke + a ≤ cfg.flypoke_daily_limit)
    (ha : a ≤ cfg.flypoke_daily_limit) :
    (writtenStats s t p GameType.FlyPoke a).flypoke ≤ cfg.flypoke_daily_limit
    ∧ (writtenStats s t p GameType.FlyPoke a).battle ≤ cfg.battle_daily_limit := by
  rcases hst : s.daily_stats (p, t) with _ | st0
  · rw [(writtenStats_fly_none s t p a hst).1, (writtenStats_fly_none s t p a hst).2]
    exact ⟨ha, Nat.zero_le _⟩
  · rw [(writtenStats_fly_some s t p a st0 hst).1, (writtenStats_fly_some s t p a st0 hst).2]
    exact ⟨hguard st0 hst, (hc p t st0 hst).2⟩

theorem writtenStats_bat_le (cfg : Config) (s : MemoryStorage) (t : Int) (p : String) (a : Nat)
    (hc : StatsCapped cfg s)
    (hguard : ∀ st0, s.daily_stats (p, t) = some st0 →
      st0.battle + a ≤ cfg.battle_daily_limit)
    (ha : a ≤ cfg.battle_daily_limit) :
    (writtenStats s t p GameType.Battle a).flypoke ≤ cfg.flypoke_daily_limit
    ∧ (writtenStats s t p GameType.Battle a).battle ≤ cfg.battle_daily_limit := by
  rcases hst : s.daily_stats (p, t) with _ | st0
  · rw [(writtenStats_bat_none s t p a hst).1, (writtenStats_bat_none s t p a hst).2]
    exact ⟨Nat.zero_le _, ha⟩
  · rw [(writtenStats_bat_some s t p a st0 hst).1, (writtenStats_bat_some s t p a st0 hst).2]
    exact ⟨(hc p t st0 hst).1, hguard st0 hst⟩

theorem writtenStats_login_le (cfg : Config) (s : MemoryStorage) (t : Int) (p : String)
    (a : Nat) (hc : StatsCapped cfg s) :
    (writtenStats s t p GameType.Login a).flypoke ≤ cfg.flypoke_daily_limit
    ∧ (writtenStats s t p GameType.Login a).battle ≤ cfg.battle_daily_limit := by
  rcases hst : s.daily_stats (p, t) with _ | st0
  · rw [(writtenStats_login_none s t p a hst).1, (writtenStats_login_none s t p a hst).2]
    exact ⟨Nat.zero_le _, Nat.zero_le _⟩
  · rw [(writtenStats_login_some s t p a st0 hst).1, (writtenStats_login_some s t p a st0 hst).2]
    exact hc p t st0 hst

theorem statsCapped_flypoke (cfg : Config) (s : MemoryStorage) (t : Int) (rid : Nat)
    (p : String) (d : FlyPokeEventData) (hc : StatsCapped cfg s)
    (hop : calculate_flypoke_reward d.score d.is_new_high_score ≤ cfg.flypoke_daily_limit) :
    StatsCapped cfg (RewardEngine.process_flypoke_event cfg s t rid p d).2 := by
  rcases flypoke_state_shape cfg s t rid p d with h | ⟨hguard, w, h⟩
  · rw [h]; exact hc
  · rw [h]
    have hc' : StatsCapped cfg (s.create_reward w) := fun q e st hq => hc q e st hq
    exact statsCapped_update cfg _ t p GameType.FlyPoke _ hc'
      (writtenStats_fly_le cfg (s.create_reward w) t p _ hc' hguard hop).1
      (writtenStats_fly_le cfg (s.create_reward w) t p _ hc' hguard hop).2

theorem statsCapped_battle (cfg : Config) (s : MemoryStorage) (t : Int) (rid : Nat)
    (p : String) (d : BattleEventData) (hc : StatsCapped cfg s)
    (hop : calculate_battle_reward cfg d.level d.streak ≤ cfg.battle_daily_limit) :
    StatsCapped cfg (RewardEngine.process_battle_event cfg s t rid p d).2 := by
  rcases battle_state_shape cfg s t rid p d with h | ⟨hguard, w, h⟩
  · rw [h]; exact hc
  · rw [h]
    have hc' : StatsCapped cfg (s.create_reward w) := fun q e st hq => hc q e st hq
    exact statsCapped_update cfg _ t p GameType.Battle _ hc'
      (writtenStats_bat_le cfg (s.create_reward w) t p _ hc' hguard hop).1
      (writtenStats_bat_le cfg (s.create_reward w) t p _ hc' hguard hop).2

theorem statsCapped_login (cfg : Config) (s : MemoryStorage) (t : Int) (rid : Nat)
    (p : String) (hc : StatsCapped cfg s) :
    StatsCapped cfg (RewardEngine.process_login_event cfg s t rid p).2 := by
  rcases login_state_shape cfg s t rid p with h | ⟨u, a, w, h⟩
  · rw [h]; exact hc
  · rw [h]
    have hc' : StatsCapped cfg ((s.update_login_streak u).create_reward w) :=
      fun q e st hq => hc q e st hq
    exact statsCapped_update cfg _ t p GameType.Login a hc'
      (writtenStats_login_le cfg _ t p a hc').1
      (writtenStats_login_le cfg _ t p a hc').2

/-- An operation's computed amount stays within the limit of the capped game
it touches (vacuous for operations of uncapped flows). -/
def opRespectsLimits (cfg : Config) : Op → Prop
  | Op.flypokeEv _ _ _ d =>
    calculate_flypoke_reward d.score d.is_new_high_score ≤ cfg.flypoke_daily_limit
  | Op.battleEv _ _ _ d =>
    calculate_battle_reward cfg d.level d.streak ≤ cfg.battle_daily_limit
  | Op.gameEv _ _ ev =>
    match ev.game, ev.event_data with
    | GameType.FlyPoke, EventPayload.flypoke d =>
      calculate_flypoke_reward d.score d.is_new_high_score ≤ cfg.flypoke_daily_limit
    | GameType.Battle, EventPayload.battle d =>
      calculate_battle_reward cfg d.level d.streak ≤ cfg.battle_daily_limit
    | _, _ => True
  | _ => True

theorem applyOp_statsCapped (cfg : Config) (s : MemoryStorage) (op : Op)
    (hop : opRespectsLimits cfg op) (hc : StatsCapped cfg s) :
    StatsCapped cfg (applyOp cfg s op) := by
  cases op with
  | flypokeEv t rid p d => exact statsCapped_flypoke cfg s t rid p d hc hop
  | battleEv t rid p d => exact statsCapped_battle cfg s t rid p d hc hop
  | loginEv t rid p => exact statsCapped_login cfg s t rid p hc
  | welcomeEv t rid p =>
    exact statsCapped_of_ds_eq cfg s _ (welcome_state_daily_stats cfg s t rid p) hc
  | claimAllEv p =>
    exact statsCapped_of_ds_eq cfg s _ (claim_rewards_daily_stats s p) hc
  | gameEv t rid ev =>
    rcases ev with ⟨pp, g, pay⟩
    cases g with
    | FlyPoke =>
      cases pay with
      | flypoke d => exact statsCapped_flypoke cfg s t rid pp d hc hop
      | battle d => exact hc
      | other => exact hc
    | Battle =>
      cases pay with
      | battle d => exact statsCapped_battle cfg s t rid pp d hc hop
      | flypoke d => exact hc
      | other => exact hc
    | Login => exact statsCapped_login cfg s t rid pp hc
    | Welcome =>
      exact statsCapped_of_ds_eq cfg s _ (welcome_state_daily_stats cfg s t rid pp) hc
    | PokeMatch => exact hc
    | Pokedex => exact hc

theorem exec_statsCapped (cfg : Config) (ops : List Op)
    (hops : ∀ op ∈ ops, opRespectsLimits cfg op) : StatsCapped cfg (exec cfg ops) := by
  suffices h : ∀ (l : List Op) (s : MemoryStorage),
      (∀ op ∈ l, opRespectsLimits cfg op) → StatsCapped cfg s →
      StatsCapped cfg (l.foldl (applyOp cfg) s) from
    h ops MemoryStorage.new hops (statsCapped_new cfg)
  intro l
  induction l with
  | nil => exact fun s _ hs => hs
  | cons op rest ih =>
    intro s hall hs
    exact ih (applyOp cfg s op) (fun o ho => hall o (List.mem_cons_of_mem op ho))
      (applyOp_statsCapped cfg s op (hall op (List.mem_cons_self op rest)) hs)

/-- Counterexample to claim C2: one reachable step — a single Battle event of
level 20 (450 POKE-e9) on an empty day — leaves a per-game aggregate sum of
450 POKE-e9, strictly above the configured 300 POKE-e9 Battle limit, so the
aggregate can exceed the limit in a reachable state. -/
theorem reachable_aggregate_exceeds_limit :
    ((exec default_config
        [Op.battleEv 0 0 "p" { level := 20, streak := 1, perfect_victory := none }]).daily_stats
      ("p", 0)).map DailyStats.battle = some 450000000000
    ∧ get_daily_limit default_config GameType.Battle = some 300000000000
    ∧ 450000000000 > 300000000000 := by
  refine ⟨rfl, rfl, by decide⟩

/-- Claim C2 as amended: provided every submitted event's computed amount is
at most the limit of the capped game it touches, the per-game daily aggregate
sums never exceed their limits in any reachable state; and in any reachable
state where an aggregate exists, an event whose amount would push the
per-game sum past the limit is rejected with `daily_limit_reached = true` and
no state change. (Unconditionally, a first event of a day can exceed the
limit, because the check is skipped when no aggregate exists.) -/
theorem daily_limit_invariant_amended (cfg : Config) (ops : List Op)
    (hops : ∀ op ∈ ops, opRespectsLimits cfg op) :
    (∀ p d st, (exec cfg ops).daily_stats (p, d) = some st →
      st.flypoke ≤ cfg.flypoke_daily_limit ∧ st.battle ≤ cfg.battle_daily_limit)
    ∧ (∀ p d st rid fd, (exec cfg ops).daily_stats (p, d) = some st →
      st.flypoke + calculate_flypoke_reward fd.score fd.is_new_high_score >
        cfg.flypoke_daily_limit →
      RewardEngine.process_flypoke_event cfg (exec cfg ops) d rid p fd =
        ({ reward := none, success := false, message := "Daily limit reached for FlyPoke",
           daily_limit_reached := true }, exec cfg ops))
    ∧ (∀ p d st rid bd, (exec cfg ops).daily_stats (p, d) = some st →
      st.battle + calculate_battle_reward cfg bd.level bd.streak > cfg.battle_daily_limit →
      RewardEngine.process_battle_event cfg (exec cfg ops) d rid p bd =
        ({ reward := none, success := false, message := "Daily limit reached for Battle",
           daily_limit_reached := true }, exec cfg ops)) := by
  refine ⟨exec_statsCapped cfg ops hops, ?_, ?_⟩
  · intro p d st rid fd h hgt
    simp [RewardEngine.process_flypoke_event, get_daily_limit,
      MemoryStorage.get_daily_stats, h, hgt]
  · intro p d st rid bd h hgt
    simp [RewardEngine.process_battle_event, get_daily_limit,
      MemoryStorage.get_daily_stats, h, hgt]

/-- Witness for `daily_limit_invariant_amended`: after one FlyPoke event of
score 600 (25 POKE-e9, within the 500 limit) the aggregate buckets are within
their limits. -/
theorem daily_limit_invariant_amended_witness :
    (25000000000 : Nat) ≤ 500000000000 ∧ (0 : Nat) ≤ 300000000000 :=
  (daily_limit_invariant_amended default_config
      [Op.flypokeEv 0 0 "p" { score := 600, is_new_high_score := false, level := none }]
      (by
        intro op h
        rw [List.mem_singleton] at h
        subst h
        show calculate_flypoke_reward 600 false ≤ default_config.flypoke_daily_limit
        decide)).1 "p" 0
    { player_id := "p", date := 0, flypoke := 25000000000, battle := 0, login := 0,
      total := 25000000000 } rfl
